import Mathlib

/-
Verification development for the keyword-manager service.

The definitions below are a shallow embedding of the service's core logic:
the feedback/decay scoring arithmetic of `ConceptService.process_feedback`
and `ConceptService.apply_confidence_decay` (app/services/concept_service.py),
the CRUD operations of app/db/crud.py, the rate limiter and translation
handling of app/services/llm_service.py, and the create-or-merge protocol of
`_process_single_generated_term_option2`.  Scores and timestamps are modelled
as rationals; the persistent store and the external provider are modelled as
explicit oracle arguments (lookup results, insert outcomes, responses).
-/

namespace KeywordManager

/-- Status enum of app/db/models.py: concepts are active or inactive. -/
inductive TranslationStatus where
  | active
  | inactive
deriving DecidableEq, Repr

/-- Configuration surface of app/core/config.py relevant to scoring:
LOW_YIELD_THRESHOLD (default 0.3), KEYWORD_DEACTIVATION_THRESHOLD (default 0.2),
SCORE_DECAY_FACTOR (default 0.95, constrained to (0,1)),
CONFIDENCE_TIME_DECAY_FACTOR (default 0.98, constrained to (0,1)). -/
structure Settings where
  LOW_YIELD_THRESHOLD : ℚ
  KEYWORD_DEACTIVATION_THRESHOLD : ℚ
  SCORE_DECAY_FACTOR : ℚ
  CONFIDENCE_TIME_DECAY_FACTOR : ℚ
deriving DecidableEq, Repr

/-- The default values of the scoring fields in app/core/config.py. -/
def defaultSettings : Settings :=
  { LOW_YIELD_THRESHOLD := 3/10
    KEYWORD_DEACTIVATION_THRESHOLD := 1/5
    SCORE_DECAY_FACTOR := 19/20
    CONFIDENCE_TIME_DECAY_FACTOR := 49/50 }

/-- The concept-level metric fields of a concept document
(confidence_score, historical_yield, usage_count, status,
last_positive_feedback_at), as read and written by process_feedback and
apply_confidence_decay.  Timestamps are rationals; a missing
last_positive_feedback_at is `none`. -/
structure ConceptMetrics where
  confidence_score : ℚ
  historical_yield : ℚ
  usage_count : ℕ
  status : TranslationStatus
  last_positive_feedback_at : Option ℚ
deriving DecidableEq, Repr

/-- New confidence score computed by process_feedback
(app/services/concept_service.py lines 223-225):
`min(score*1.05, 1.0)` on positive feedback, `score*SCORE_DECAY_FACTOR`
on negative feedback, then `max(0.0, ...)`. -/
def newScoreOfFeedback (s : Settings) (score m : ℚ) : ℚ :=
  max 0 (if s.LOW_YIELD_THRESHOLD ≤ m then min (score * (105/100)) 1
         else score * s.SCORE_DECAY_FACTOR)

/-- New historical yield computed by process_feedback (lines 226-227):
the metric itself at usage 0, otherwise the running weighted average,
clamped into [0,1]. -/
def newYieldOfFeedback (yld : ℚ) (usage : ℕ) (m : ℚ) : ℚ :=
  max 0 (min 1 (if usage = 0 then m
                else (yld * (usage : ℚ) + m) / ((usage : ℚ) + 1)))

/-- Status transition of process_feedback (lines 228-234): deactivate an
active concept when the new score falls below KEYWORD_DEACTIVATION_THRESHOLD,
reactivate an inactive one when it reaches the threshold, otherwise keep. -/
def statusAfter (s : Settings) (newScore : ℚ) (st : TranslationStatus) :
    TranslationStatus :=
  if newScore < s.KEYWORD_DEACTIVATION_THRESHOLD ∧ st = .active then .inactive
  else if s.KEYWORD_DEACTIVATION_THRESHOLD ≤ newScore ∧ st = .inactive then .active
  else st

/-- One feedback event on concept-level metrics: the arithmetic of
ConceptService.process_feedback (lines 221-236) combined with
crud.apply_feedback_update, which additionally increments usage_count by 1.
Positive feedback also stamps last_positive_feedback_at with the current
time. -/
def processFeedbackMetrics (s : Settings) (now : ℚ) (c : ConceptMetrics)
    (m : ℚ) : ConceptMetrics :=
  let ns := newScoreOfFeedback s c.confidence_score m
  { confidence_score := ns
    historical_yield := newYieldOfFeedback c.historical_yield c.usage_count m
    usage_count := c.usage_count + 1
    status := statusAfter s ns c.status
    last_positive_feedback_at :=
      if s.LOW_YIELD_THRESHOLD ≤ m then some now
      else c.last_positive_feedback_at }

/-- Trace of metric states after each event of a feedback sequence. -/
def feedbackTrace (s : Settings) (now : ℚ) (c : ConceptMetrics) :
    List ℚ → List ConceptMetrics
  | [] => []
  | m :: ms =>
    let c2 := processFeedbackMetrics s now c m
    c2 :: feedbackTrace s now c2 ms

/-- Decay eligibility test of apply_confidence_decay (line 261): status is
active and the last positive feedback is unset or strictly older than the
cutoff (now minus CONFIDENCE_DECAY_PERIOD_DAYS). -/
def decayDue (cutoff : ℚ) (c : ConceptMetrics) : Bool :=
  decide (c.status = .active) &&
    (match c.last_positive_feedback_at with
     | none => true
     | some t => decide (t < cutoff))

/-- Decayed score of apply_confidence_decay (line 262):
`max(0.0, score * CONFIDENCE_TIME_DECAY_FACTOR)`. -/
def decayedScore (s : Settings) (score : ℚ) : ℚ :=
  max 0 (score * s.CONFIDENCE_TIME_DECAY_FACTOR)

/-- Recomputed status of apply_confidence_decay (line 263): inactive exactly
when the decayed score is below KEYWORD_DEACTIVATION_THRESHOLD. -/
def decayedStatus (s : Settings) (sc : ℚ) : TranslationStatus :=
  if sc < s.KEYWORD_DEACTIVATION_THRESHOLD then .inactive else .active

/-- Outcome of the per-concept decay decision: either no persistence write
is scheduled, or a write of the new score and status. -/
inductive DecayOutcome where
  | unchanged
  | write (score : ℚ) (status : TranslationStatus)
deriving DecidableEq, Repr

/-- Per-concept decision of apply_confidence_decay (lines 256-266): when the
concept is due for decay and either the score or the status actually moves,
schedule a write of the new values; otherwise do nothing. -/
def decayStep (s : Settings) (cutoff : ℚ) (c : ConceptMetrics) : DecayOutcome :=
  if decayDue cutoff c then
    let sc := decayedScore s c.confidence_score
    let st := decayedStatus s sc
    if sc ≠ c.confidence_score ∨ st ≠ c.status then .write sc st
    else .unchanged
  else .unchanged

/-- The decay cycle's write set: apply_confidence_decay iterates the fetched
concepts and appends one crud.apply_time_decay_to_concept task per concept
whose decayStep decided a write. -/
def decayCycleTasks (s : Settings) (cutoff : ℚ) :
    List (ℕ × ConceptMetrics) → List (ℕ × ℚ × TranslationStatus)
  | [] => []
  | (i, c) :: rest =>
    match decayStep s cutoff c with
    | .write sc st => (i, sc, st) :: decayCycleTasks s cutoff rest
    | .unchanged => decayCycleTasks s cutoff rest

/-- Clamp into [0,1], as the specification's clamp01. -/
def clamp01 (x : ℚ) : ℚ := max 0 (min 1 x)

/-- Spec-side formula for the new confidence score, transcribed from the
specification text: `clamp01(isPositive ? min(score*1.05, 1.0)
: score*SCORE_DECAY_FACTOR)`.  Used to compare the code's arithmetic with
the spec's words. -/
def specFeedbackScore (s : Settings) (score m : ℚ) : ℚ :=
  clamp01 (if s.LOW_YIELD_THRESHOLD ≤ m then min (score * (105/100)) 1
           else score * s.SCORE_DECAY_FACTOR)

/-- Spec-side formula for the new historical yield, transcribed from the
specification text: `usage==0 ? relevanceMetric
: clamp01((yield*usage + relevanceMetric)/(usage+1))`. -/
def specFeedbackYield (yld : ℚ) (usage : ℕ) (m : ℚ) : ℚ :=
  if usage = 0 then m
  else clamp01 ((yld * (usage : ℚ) + m) / ((usage : ℚ) + 1))

/-- Sample metric state: the schema defaults of a freshly created concept
(confidence 0.75, yield 0.5, usage 0, active, no positive feedback yet). -/
def sampleMetrics : ConceptMetrics :=
  { confidence_score := 3/4
    historical_yield := 1/2
    usage_count := 0
    status := .active
    last_positive_feedback_at := none }

/-- The closed supported-language set of app/core/config.py:
SUPPORTED_LANGUAGES = ["en", "fr", "ar"]. -/
def SUPPORTED_LANGUAGES : List String := ["en", "fr", "ar"]

/-- Key set of LANGUAGE_NAMES in app/prompts/templates.py; translate_term and
generate_target_lang_concepts reject language codes outside it. -/
def LANGUAGE_NAMES_KEYS : List String := ["en", "fr", "ar"]

/-- A concept document as far as the verified operations touch it: identifier,
per-language terms, categories, the metric block, and the mutable
timestamps. -/
structure Concept where
  id : ℕ
  translations : List (String × String)
  categories : List String
  metrics : ConceptMetrics
  updated_at : ℚ
  last_used_at : Option ℚ
deriving DecidableEq, Repr

/-- Python str.lower(): lower-case every character. -/
def pyLower (s : String) : String :=
  String.mk (s.toList.map Char.toLower)

/-- Python str.strip() with no argument: drop leading and trailing
whitespace characters. -/
def pyStrip (s : String) : String :=
  String.mk
    (((s.toList.dropWhile Char.isWhitespace).reverse.dropWhile
      Char.isWhitespace).reverse)

/-- MongoDB `$set` on the field `translations.<lang>`: replace the term for
`lang` when present, otherwise add the entry. -/
def setTranslation : List (String × String) → String → String →
    List (String × String)
  | [], lang, v => [(lang, v)]
  | (k, w) :: rest, lang, v =>
    if k = lang then (k, v) :: rest else (k, w) :: setTranslation rest lang v

/-- Embedding of crud.add_or_update_translation_term: reject a language
outside SUPPORTED_LANGUAGES with `false` and no write; otherwise update the
matched document, storing `term.lower()` (the source applies no trimming) and
stamping updated_at, and return whether a document was matched. -/
def add_or_update_translation_term (now : ℚ) (store : Option Concept)
    (lang term : String) : Bool × Option Concept :=
  if lang ∈ SUPPORTED_LANGUAGES then
    match store with
    | none => (false, none)
    | some c =>
      (true, some { c with
        translations := setTranslation c.translations lang (pyLower term)
        updated_at := now })
  else (false, store)

/-- Outcome of the store's insert_one as observed by crud.create_concept:
a successful insert with the new id, a uniqueness conflict
(DuplicateKeyError), a database command failure (OperationFailure), or any
other unexpected error. -/
inductive InsertOutcome where
  | inserted (id : ℕ)
  | duplicateKey
  | operationFailure
  | otherFailure
deriving DecidableEq, Repr

/-- The errors crud.create_concept raises to its caller: the RuntimeError on
a failed post-insert fetch, a re-raised OperationFailure, or a re-raised
unexpected error. -/
inductive DbError where
  | postInsertFetchFailed
  | operationFailure
  | otherFailure
deriving DecidableEq, Repr

/-- Embedding of crud.create_concept (app/db/crud.py lines 34-66): on a
successful insert, fetch the new document by id and return it, raising
RuntimeError when that fetch finds nothing; return `none` exactly on
DuplicateKeyError; re-raise OperationFailure and every other error. -/
def create_concept (ins : InsertOutcome) (fetchById : ℕ → Option Concept) :
    Except DbError (Option Concept) :=
  match ins with
  | .inserted i =>
    match fetchById i with
    | some doc => .ok (some doc)
    | none => .error .postInsertFetchFailed
  | .duplicateKey => .ok none
  | .operationFailure => .error .operationFailure
  | .otherFailure => .error .otherFailure

/-- Result of the find-or-create section of
_process_single_generated_term_option2: the optimistic lookup hit, a genuine
insert, the merge after a reported conflict, the fatal consistency failure
(conflict reported but the re-read found nothing), or a database error caught
by the surrounding try/except. -/
inductive FindOrCreateResult where
  | found (c : Concept)
  | created (c : Concept)
  | mergedAfterConflict (c : Concept)
  | consistencyFailure
  | dbErrorCaught (e : DbError)
deriving DecidableEq, Repr

/-- The create-or-merge protocol of _process_single_generated_term_option2
(app/services/concept_service.py lines 108-147): optimistic lookup first;
if absent, attempt crud.create_concept; a `none` from create (the
DuplicateKeyError signal) triggers a re-read by the canonical term; a failed
re-read is the consistency failure; a raised database error is caught.
The store's answers at the three interaction points are the oracle
arguments. -/
def findOrCreate (firstFind : Option Concept) (ins : InsertOutcome)
    (fetchById : ℕ → Option Concept) (refind : Option Concept) :
    FindOrCreateResult :=
  match firstFind with
  | some c => .found c
  | none =>
    match create_concept ins fetchById with
    | .ok (some c) => .created c
    | .ok none =>
      match refind with
      | some c => .mergedAfterConflict c
      | none => .consistencyFailure
    | .error e => .dbErrorCaught e

/-- The `created` flag of the protocol: false on the lookup hit and on the
post-conflict merge, true on a genuine insert, undefined on failure. -/
def createdFlag : FindOrCreateResult → Option Bool
  | .found _ => some false
  | .created _ => some true
  | .mergedAfterConflict _ => some false
  | .consistencyFailure => none
  | .dbErrorCaught _ => none

/-- Whether _process_single_generated_term_option2 continues past the
find-or-create section; the consistency failure and a caught database error
both make it return False for this term. -/
def termSucceeds : FindOrCreateResult → Bool
  | .consistencyFailure => false
  | .dbErrorCaught _ => false
  | _ => true

/-- One pass through the rate limiter's critical section
(LLMService._apply_rate_limit_delay, app/services/llm_service.py lines
53-68): with no recorded previous call the arrival time is stamped as the
call start; otherwise the remaining wait until the minimum interval has
elapsed is computed, slept when positive (sleeping at least that long —
`overshoot` is the extra time the sleep and re-reading the clock take), and
the resulting time is stamped. -/
def rateLimitStep (minI : ℚ) (last : Option ℚ) (arrival overshoot : ℚ) : ℚ :=
  match last with
  | none => arrival
  | some t =>
    if 0 < minI - (arrival - t) then arrival + (minI - (arrival - t)) + overshoot
    else arrival

/-- Recorded start times of a sequence of gateway calls through the limiter.
The lock serializes the passes, so each pass sees the timestamp stamped by
the previous one; each list element is that pass's (arrival, overshoot)
pair. -/
def rateLimitStarts (minI : ℚ) (last : Option ℚ) :
    List (ℚ × ℚ) → List ℚ
  | [] => []
  | p :: rest =>
    let st := rateLimitStep minI last p.1 p.2
    st :: rateLimitStarts minI (some st) rest

/-- Quote characters stripped by translate_term's normalization
(Python `.strip(chr(34) + chr(39))`). -/
def isQuoteChar (c : Char) : Bool :=
  c == Char.ofNat 34 || c == Char.ofNat 39

/-- Python str.strip(chars): drop leading and trailing characters satisfying
the predicate. -/
def stripEdgeChars (p : Char → Bool) (s : String) : String :=
  String.mk (((s.toList.dropWhile p).reverse.dropWhile p).reverse)

/-- Normalization translate_term applies to the provider's response text
(llm_service.py line 178): whitespace-strip, strip surrounding quote
characters, lower-case. -/
def normalizeTranslationText (raw : String) : String :=
  pyLower (stripEdgeChars isQuoteChar (pyStrip raw))

/-- Embedding of LLMService.translate_term (llm_service.py lines 161-192).
`response` is what the rate-limited provider call returns (`none` on every
provider failure).  Unsupported language codes fail before any call; an
absent or empty response fails; an empty normalized translation fails; a
normalized translation identical to the lower-cased source term fails when
source and target languages are the same and is accepted when they differ. -/
def translate_term (term srcLang tgtLang : String)
    (response : Option String) : Option String :=
  if srcLang ∈ LANGUAGE_NAMES_KEYS ∧ tgtLang ∈ LANGUAGE_NAMES_KEYS then
    match response with
    | none => none
    | some raw =>
      if raw = "" then none
      else
        let translation := normalizeTranslationText raw
        if translation = "" then none
        else if translation = pyLower term then
          if srcLang = tgtLang then none else some translation
        else some translation
  else none

/-- Feedback intake payload (app/api/schemas.py ConceptFeedbackPayload):
concept id, language, relevance metric in [0,1], optional verification
term. -/
structure FeedbackPayload where
  concept_id : ℕ
  language : String
  relevance_metric : ℚ
  term : Option String
deriving DecidableEq, Repr

/-- The logged-only check of process_feedback line 218: the payload's
language has no entry in the concept's translations. -/
def feedbackLangMissing (c : Concept) (p : FeedbackPayload) : Bool :=
  (List.lookup p.language c.translations).isNone

/-- The logged-only check of process_feedback line 219: a verification term
was supplied, the language is present, and the lower-cased terms differ. -/
def feedbackTermMismatch (c : Concept) (p : FeedbackPayload) : Bool :=
  match List.lookup p.language c.translations, p.term with
  | some stored, some t => pyLower t ≠ pyLower stored
  | _, _ => false

/-- Full effect of one applied feedback event on a concept document: the
metric update of processFeedbackMetrics plus crud.apply_feedback_update's
stamping of updated_at and last_used_at. -/
def applyFeedbackToConcept (s : Settings) (now : ℚ) (c : Concept) (m : ℚ) :
    Concept :=
  { c with
    metrics := processFeedbackMetrics s now c.metrics m
    updated_at := now
    last_used_at := some now }

/-- Embedding of ConceptService.process_feedback (lines 210-242): `lookup` is
the store's answer for the payload's concept id (a missing concept returns
`none`); the language/term mismatch checks only log; `matched` is whether
crud.apply_feedback_update matched the document (a failed update returns
`none`); on success the updated concept is returned. -/
def process_feedback (s : Settings) (now : ℚ) (lookup : Option Concept)
    (matched : Bool) (p : FeedbackPayload) : Option Concept :=
  match lookup with
  | none => none
  | some c =>
    if matched then some (applyFeedbackToConcept s now c p.relevance_metric)
    else none

/-- Sample concept used by concrete witnesses:
the canonical term is stored under "en". -/
def sampleConcept : Concept :=
  { id := 1
    translations := [("en", "fever")]
    categories := ["symptoms"]
    metrics := sampleMetrics
    updated_at := 0
    last_used_at := none }

/-- The stored term for a language after a translation-upsert call. -/
def storedTerm (r : Bool × Option Concept) (lang : String) : Option String :=
  match r.2 with
  | some c => List.lookup lang c.translations
  | none => none

/-- Sample metric state that is due for decay (active, no positive feedback
recorded). -/
def decaySample : ConceptMetrics :=
  { confidence_score := 1/2
    historical_yield := 1/2
    usage_count := 0
    status := .active
    last_positive_feedback_at := none }

/-- Sample metric state with recent positive feedback. -/
def recentSample : ConceptMetrics :=
  { confidence_score := 1/2
    historical_yield := 1/2
    usage_count := 3
    status := .active
    last_positive_feedback_at := some 5 }

/-- Sample feedback payload whose language has no entry on sampleConcept. -/
def samplePayload : FeedbackPayload :=
  { concept_id := 1
    language := "fr"
    relevance_metric := 9/10
    term := none }

/-- Sample call sequence for the rate limiter: arrivals 0, 1, 10 with
overshoots 0, 0, 1/2. -/
def sampleCalls : List (ℚ × ℚ) := [(0, 0), (1, 0), (10, 1/2)]

/-- The status written back is inactive exactly when the new score is below
the deactivation threshold, for either starting status. -/
lemma statusAfter_inactive_iff (s : Settings) (ns : ℚ)
    (st : TranslationStatus) :
    statusAfter s ns st = .inactive ↔
      ns < s.KEYWORD_DEACTIVATION_THRESHOLD := by
  rcases st <;> simp only [statusAfter] <;> split_ifs with h1 h2 <;>
    simp_all

/-- The recomputed decay status is inactive exactly when the decayed score
is below the deactivation threshold. -/
lemma decayedStatus_inactive_iff (s : Settings) (sc : ℚ) :
    decayedStatus s sc = .inactive ↔
      sc < s.KEYWORD_DEACTIVATION_THRESHOLD := by
  unfold decayedStatus
  split_ifs with h <;> simp [h]

/-- Characterization of the decay-eligibility test. -/
lemma decayDue_iff (cutoff : ℚ) (c : ConceptMetrics) :
    decayDue cutoff c = true ↔
      c.status = .active ∧ (c.last_positive_feedback_at = none ∨
        ∃ t, c.last_positive_feedback_at = some t ∧ t < cutoff) := by
  unfold decayDue
  cases hl : c.last_positive_feedback_at <;> simp [hl]

/-- The score written by a feedback event stays within [0,1] when the
incoming score does and the decay factor lies in (0,1). -/
lemma feedbackScore_bounds (s : Settings) (score m : ℚ)
    (hf0 : 0 < s.SCORE_DECAY_FACTOR) (hf1 : s.SCORE_DECAY_FACTOR < 1)
    (hs0 : 0 ≤ score) (hs1 : score ≤ 1) :
    0 ≤ newScoreOfFeedback s score m ∧ newScoreOfFeedback s score m ≤ 1 := by
  unfold newScoreOfFeedback
  refine ⟨le_max_left 0 _, max_le (by norm_num) ?_⟩
  split_ifs with h
  · exact min_le_right _ _
  · nlinarith

/-- The yield written by a feedback event always lands in [0,1]. -/
lemma feedbackYield_bounds (yld : ℚ) (usage : ℕ) (m : ℚ) :
    0 ≤ newYieldOfFeedback yld usage m ∧ newYieldOfFeedback yld usage m ≤ 1 := by
  unfold newYieldOfFeedback
  exact ⟨le_max_left 0 _, max_le (by norm_num) (min_le_left _ _)⟩

/-- A single limiter pass never stamps a start closer than the minimum
interval to the previously recorded start. -/
lemma rateLimitStep_gap (minI t arrival overshoot : ℚ)
    (ho : 0 ≤ overshoot) :
    minI ≤ rateLimitStep minI (some t) arrival overshoot - t := by
  simp only [rateLimitStep]
  split_ifs with h
  · linarith
  · push_neg at h
    linarith

/-- Successive limiter starts, beginning from a recorded timestamp, are
spaced by at least the minimum interval. -/
lemma rateLimitStarts_chain (minI t : ℚ) (calls : List (ℚ × ℚ))
    (h : ∀ p ∈ calls, 0 ≤ p.2) :
    List.Chain (fun x y => minI ≤ y - x) t
      (rateLimitStarts minI (some t) calls) := by
  induction calls generalizing t with
  | nil => exact List.Chain.nil
  | cons p rest ih =>
    exact List.Chain.cons
      (rateLimitStep_gap minI t p.1 p.2 (h p (List.mem_cons_self p rest)))
      (ih _ (fun q hq => h q (List.mem_cons_of_mem _ hq)))

/-- Looking up a language after setting its term finds the set value. -/
lemma lookup_setTranslation (ts : List (String × String)) (lang v : String) :
    List.lookup lang (setTranslation ts lang v) = some v := by
  induction ts with
  | nil => simp [setTranslation, List.lookup]
  | cons p rest ih =>
    rcases p with ⟨k, w⟩
    by_cases hk : k = lang
    · subst hk
      simp [setTranslation, List.lookup]
    · have hbeq : (lang == k) = false := beq_eq_false_iff_ne.mpr (Ne.symm hk)
      simp [setTranslation, hk, List.lookup, ih, hbeq]

/-- C1: the create-or-merge protocol for a generated term follows the
specified algorithm.  An optimistic lookup hit uses the existing record with
created=false; on a miss an insert that succeeds uses the new record with
created=true; an insert that reports a uniqueness conflict leads to a re-read
by the canonical term, whose hit is used with created=false; and a failed
re-read after a reported conflict is the consistency failure, which makes the
term's processing return false rather than being silently swallowed. -/
theorem C1_create_or_merge_protocol (firstFind : Option Concept)
    (ins : InsertOutcome) (fetchById : ℕ → Option Concept)
    (refind : Option Concept) :
    (∀ c, firstFind = some c →
      findOrCreate firstFind ins fetchById refind = .found c
      ∧ createdFlag (findOrCreate firstFind ins fetchById refind) = some false)
    ∧ (∀ i c, firstFind = none → ins = .inserted i → fetchById i = some c →
      findOrCreate firstFind ins fetchById refind = .created c
      ∧ createdFlag (findOrCreate firstFind ins fetchById refind) = some true)
    ∧ (∀ c, firstFind = none → ins = .duplicateKey → refind = some c →
      findOrCreate firstFind ins fetchById refind = .mergedAfterConflict c
      ∧ createdFlag (findOrCreate firstFind ins fetchById refind) = some false)
    ∧ (firstFind = none → ins = .duplicateKey → refind = none →
      findOrCreate firstFind ins fetchById refind = .consistencyFailure
      ∧ termSucceeds (findOrCreate firstFind ins fetchById refind) = false) := by
  refine ⟨?_, ?_, ?_, ?_⟩
  · intro c h
    subst h
    exact ⟨rfl, rfl⟩
  · intro i c h1 h2 h3
    subst h1; subst h2
    simp [findOrCreate, create_concept, h3, createdFlag]
  · intro c h1 h2 h3
    subst h1; subst h2; subst h3
    simp [findOrCreate, create_concept, createdFlag]
  · intro h1 h2 h3
    subst h1; subst h2; subst h3
    simp [findOrCreate, create_concept, termSucceeds]

/-- Witness for C1: each protocol branch, realized at concrete store
answers. -/
theorem C1_witness :
    (findOrCreate (some sampleConcept) .duplicateKey (fun _ => none) none
        = .found sampleConcept
      ∧ createdFlag (findOrCreate (some sampleConcept) .duplicateKey
          (fun _ => none) none) = some false)
    ∧ (findOrCreate none (.inserted 1) (fun _ => some sampleConcept) none
        = .created sampleConcept
      ∧ createdFlag (findOrCreate none (.inserted 1)
          (fun _ => some sampleConcept) none) = some true)
    ∧ (findOrCreate none .duplicateKey (fun _ => none) (some sampleConcept)
        = .mergedAfterConflict sampleConcept
      ∧ createdFlag (findOrCreate none .duplicateKey (fun _ => none)
          (some sampleConcept)) = some false)
    ∧ (findOrCreate none .duplicateKey (fun _ => none) none
        = .consistencyFailure
      ∧ termSucceeds (findOrCreate none .duplicateKey (fun _ => none) none)
        = false) :=
  ⟨(C1_create_or_merge_protocol (some sampleConcept) .duplicateKey
      (fun _ => none) none).1 sampleConcept rfl,
   (C1_create_or_merge_protocol none (.inserted 1)
      (fun _ => some sampleConcept) none).2.1 1 sampleConcept rfl rfl rfl,
   (C1_create_or_merge_protocol none .duplicateKey (fun _ => none)
      (some sampleConcept)).2.2.1 sampleConcept rfl rfl rfl,
   (C1_create_or_merge_protocol none .duplicateKey (fun _ => none)
      none).2.2.2 rfl rfl rfl⟩

/-- C2: one feedback event performs exactly the specified arithmetic on a
concept satisfying the score/yield invariants, for a relevance metric in
[0,1] and a decay factor in (0,1): the new score equals the spec formula
(positive branch min(score*1.05, 1), negative branch the clamped
score*SCORE_DECAY_FACTOR), the new yield equals the spec formula, the usage
count increments by exactly one, and positivity (metric at or above
LOW_YIELD_THRESHOLD) stamps last_positive_feedback_at. -/
theorem C2_feedback_arithmetic (s : Settings) (now : ℚ) (c : ConceptMetrics)
    (m : ℚ) (hs0 : 0 ≤ c.confidence_score) (hs1 : c.confidence_score ≤ 1)
    (hm0 : 0 ≤ m) (hm1 : m ≤ 1) (hf0 : 0 < s.SCORE_DECAY_FACTOR)
    (hf1 : s.SCORE_DECAY_FACTOR < 1) :
    (processFeedbackMetrics s now c m).confidence_score
        = specFeedbackScore s c.confidence_score m
    ∧ (processFeedbackMetrics s now c m).historical_yield
        = specFeedbackYield c.historical_yield c.usage_count m
    ∧ (processFeedbackMetrics s now c m).usage_count = c.usage_count + 1
    ∧ (processFeedbackMetrics s now c m).last_positive_feedback_at
        = (if s.LOW_YIELD_THRESHOLD ≤ m then some now
           else c.last_positive_feedback_at) := by
  refine ⟨?_, ?_, rfl, rfl⟩
  · simp only [processFeedbackMetrics, newScoreOfFeedback, specFeedbackScore,
      clamp01]
    split_ifs with h
    · rw [min_eq_right (min_le_right _ _)]
    · rw [min_eq_right (by nlinarith)]
  · simp only [processFeedbackMetrics, newYieldOfFeedback, specFeedbackYield,
      clamp01]
    split_ifs with h
    · rw [min_eq_right hm1, max_eq_right hm0]
    · rfl

/-- Witness for C2: the default configuration, a fresh concept, and a
positive metric 0.9. -/
theorem C2_witness :
    ((0:ℚ) ≤ sampleMetrics.confidence_score
      ∧ sampleMetrics.confidence_score ≤ 1
      ∧ (0:ℚ) ≤ 9/10 ∧ (9/10:ℚ) ≤ 1
      ∧ 0 < defaultSettings.SCORE_DECAY_FACTOR
      ∧ defaultSettings.SCORE_DECAY_FACTOR < 1)
    ∧ (processFeedbackMetrics defaultSettings 0 sampleMetrics (9/10)).confidence_score
        = specFeedbackScore defaultSettings sampleMetrics.confidence_score (9/10)
    ∧ (processFeedbackMetrics defaultSettings 0 sampleMetrics (9/10)).usage_count
        = sampleMetrics.usage_count + 1 := by
  have h := C2_feedback_arithmetic defaultSettings 0 sampleMetrics (9/10)
    (by norm_num [sampleMetrics]) (by norm_num [sampleMetrics])
    (by norm_num) (by norm_num)
    (by norm_num [defaultSettings]) (by norm_num [defaultSettings])
  exact ⟨⟨by norm_num [sampleMetrics], by norm_num [sampleMetrics],
    by norm_num, by norm_num,
    by norm_num [defaultSettings], by norm_num [defaultSettings]⟩,
    h.1, h.2.2.1⟩

/-- C3: after a feedback application the resulting status is inactive iff
the resulting score is below KEYWORD_DEACTIVATION_THRESHOLD, for every
starting status and score; and whenever a decay application writes a new
score and status, that status is inactive iff that score is below the same
threshold. -/
theorem C3_status_threshold_consistency (s : Settings) (now : ℚ)
    (c : ConceptMetrics) (m : ℚ) (c2 : ConceptMetrics) (cutoff sc : ℚ)
    (st : TranslationStatus) (hw : decayStep s cutoff c2 = .write sc st) :
    ((processFeedbackMetrics s now c m).status = .inactive ↔
      (processFeedbackMetrics s now c m).confidence_score
        < s.KEYWORD_DEACTIVATION_THRESHOLD)
    ∧ (st = .inactive ↔ sc < s.KEYWORD_DEACTIVATION_THRESHOLD) := by
  constructor
  · simpa only [processFeedbackMetrics] using
      statusAfter_inactive_iff s (newScoreOfFeedback s c.confidence_score m)
        c.status
  · simp only [decayStep] at hw
    split_ifs at hw with h1 h2
    cases hw
    exact decayedStatus_inactive_iff s _

/-- The sample decay-eligible concept produces a concrete write. -/
lemma decayStep_decaySample_eq :
    decayStep defaultSettings 0 decaySample = .write (49/100) .active := by
  have hmul : decaySample.confidence_score
      * defaultSettings.CONFIDENCE_TIME_DECAY_FACTOR = 49/100 := by
    norm_num [decaySample, defaultSettings]
  have hsc : decayedScore defaultSettings decaySample.confidence_score
      = 49/100 := by
    unfold decayedScore
    rw [hmul]
    exact max_eq_right (by norm_num)
  have hdue : decayDue 0 decaySample = true := by
    simp [decayDue, decaySample]
  have hst : decayedStatus defaultSettings (49/100 : ℚ) = .active := by
    unfold decayedStatus
    rw [if_neg]
    norm_num [defaultSettings]
  simp only [decayStep, hdue, if_true, hsc, hst]
  rw [if_pos]
  left
  norm_num [decaySample]

/-- Witness for C3: the default configuration, feedback on a fresh concept,
and a concrete decay write. -/
theorem C3_witness :
    decayStep defaultSettings 0 decaySample = .write (49/100) .active
    ∧ (((processFeedbackMetrics defaultSettings 0 sampleMetrics (9/10)).status
          = .inactive ↔
        (processFeedbackMetrics defaultSettings 0 sampleMetrics
          (9/10)).confidence_score
          < defaultSettings.KEYWORD_DEACTIVATION_THRESHOLD)
      ∧ (TranslationStatus.active = .inactive ↔
          (49/100 : ℚ) < defaultSettings.KEYWORD_DEACTIVATION_THRESHOLD)) :=
  ⟨decayStep_decaySample_eq,
   C3_status_threshold_consistency defaultSettings 0 sampleMetrics (9/10)
     decaySample 0 (49/100) .active decayStep_decaySample_eq⟩

/-- C4: from a state with score and yield in [0,1], with every relevance
metric in [0,1] and the decay factor in (0,1), the score and yield stay in
[0,1] after every event of any feedback sequence. -/
theorem C4_score_bounds (s : Settings) (now : ℚ) (c : ConceptMetrics)
    (ms : List ℚ)
    (hf0 : 0 < s.SCORE_DECAY_FACTOR) (hf1 : s.SCORE_DECAY_FACTOR < 1)
    (hs0 : 0 ≤ c.confidence_score) (hs1 : c.confidence_score ≤ 1)
    (hy0 : 0 ≤ c.historical_yield) (hy1 : c.historical_yield ≤ 1)
    (hm : ∀ m ∈ ms, 0 ≤ m ∧ m ≤ 1) :
    ∀ c2 ∈ feedbackTrace s now c ms,
      (0 ≤ c2.confidence_score ∧ c2.confidence_score ≤ 1)
      ∧ (0 ≤ c2.historical_yield ∧ c2.historical_yield ≤ 1) := by
  induction ms generalizing c with
  | nil =>
    intro c2 h
    simp [feedbackTrace] at h
  | cons m ms ih =>
    intro c2 h
    have hscore :=
      feedbackScore_bounds s c.confidence_score m hf0 hf1 hs0 hs1
    have hyield := feedbackYield_bounds c.historical_yield c.usage_count m
    simp only [feedbackTrace, List.mem_cons] at h
    rcases h with rfl | h
    · exact ⟨hscore, hyield⟩
    · exact ih (processFeedbackMetrics s now c m) hscore.1 hscore.2
        hyield.1 hyield.2 (fun m' hm' => hm m' (List.mem_cons_of_mem _ hm'))
        c2 h

/-- Witness for C4: a singleton feedback sequence on a fresh concept under
the default configuration. -/
theorem C4_witness :
    ((0:ℚ) ≤ (processFeedbackMetrics defaultSettings 0 sampleMetrics
        (9/10)).confidence_score
      ∧ (processFeedbackMetrics defaultSettings 0 sampleMetrics
        (9/10)).confidence_score ≤ 1)
    ∧ ((0:ℚ) ≤ (processFeedbackMetrics defaultSettings 0 sampleMetrics
        (9/10)).historical_yield
      ∧ (processFeedbackMetrics defaultSettings 0 sampleMetrics
        (9/10)).historical_yield ≤ 1) :=
  C4_score_bounds defaultSettings 0 sampleMetrics [9/10]
    (by norm_num [defaultSettings]) (by norm_num [defaultSettings])
    (by norm_num [sampleMetrics]) (by norm_num [sampleMetrics])
    (by norm_num [sampleMetrics]) (by norm_num [sampleMetrics])
    (by intro m hm; simp at hm; subst hm; norm_num)
    (processFeedbackMetrics defaultSettings 0 sampleMetrics (9/10))
    (by simp [feedbackTrace])

/-- C5: crud.create_concept returns an absent result exactly on a
uniqueness conflict; a database command failure and every other failure
(including the failed post-insert fetch) propagate as raised errors; and a
uniqueness conflict is never surfaced as an error. -/
theorem C5_create_concept_failure_modes (ins : InsertOutcome)
    (fetchById : ℕ → Option Concept) :
    (create_concept ins fetchById = .ok none ↔ ins = .duplicateKey)
    ∧ (ins = .operationFailure →
        create_concept ins fetchById = .error .operationFailure)
    ∧ (ins = .otherFailure →
        create_concept ins fetchById = .error .otherFailure)
    ∧ (∀ i, ins = .inserted i → fetchById i = none →
        create_concept ins fetchById = .error .postInsertFetchFailed)
    ∧ (ins = .duplicateKey →
        ∀ e, create_concept ins fetchById ≠ .error e) := by
  refine ⟨?_, ?_, ?_, ?_, ?_⟩
  · cases ins with
    | inserted i =>
      simp only [create_concept]
      cases h : fetchById i <;> simp
    | duplicateKey => simp [create_concept]
    | operationFailure => simp [create_concept]
    | otherFailure => simp [create_concept]
  · intro h; subst h; rfl
  · intro h; subst h; rfl
  · intro i h1 h2
    subst h1
    simp [create_concept, h2]
  · intro h e
    subst h
    simp [create_concept]

/-- Witness for C5: concrete insert outcomes. -/
theorem C5_witness :
    create_concept .duplicateKey (fun _ => none) = .ok none
    ∧ create_concept .operationFailure (fun _ => none)
        = .error .operationFailure
    ∧ create_concept (.inserted 1) (fun _ => none)
        = .error .postInsertFetchFailed
    ∧ create_concept .duplicateKey (fun _ => none)
        ≠ .error .operationFailure :=
  ⟨(C5_create_concept_failure_modes .duplicateKey (fun _ => none)).1.mpr rfl,
   (C5_create_concept_failure_modes .operationFailure (fun _ => none)).2.1 rfl,
   (C5_create_concept_failure_modes (.inserted 1)
      (fun _ => none)).2.2.2.1 1 rfl rfl,
   (C5_create_concept_failure_modes .duplicateKey
      (fun _ => none)).2.2.2.2 rfl .operationFailure⟩

/-- C6: decay applies to a concept only when it is active and its last
positive feedback is unset or older than the cutoff; a concept with recent
positive feedback yields no write, as does one whose decayed score and
recomputed status both coincide with the current values; and every write the
decay cycle schedules comes from a concept whose per-concept decision was a
write. -/
theorem C6_decay_frame (s : Settings) (cutoff : ℚ) (c : ConceptMetrics)
    (cs : List (ℕ × ConceptMetrics)) :
    (decayStep s cutoff c ≠ .unchanged →
      c.status = .active ∧ (c.last_positive_feedback_at = none ∨
        ∃ t, c.last_positive_feedback_at = some t ∧ t < cutoff))
    ∧ (∀ t, c.last_positive_feedback_at = some t → cutoff ≤ t →
        decayStep s cutoff c = .unchanged)
    ∧ (decayedScore s c.confidence_score = c.confidence_score →
        decayedStatus s (decayedScore s c.confidence_score) = c.status →
        decayStep s cutoff c = .unchanged)
    ∧ (∀ i sc st, (i, sc, st) ∈ decayCycleTasks s cutoff cs →
        ∃ cm, (i, cm) ∈ cs ∧ decayStep s cutoff cm = .write sc st) := by
  refine ⟨?_, ?_, ?_, ?_⟩
  · intro h
    rw [← decayDue_iff cutoff c]
    by_contra hd
    have : decayDue cutoff c = false := by
      cases hb : decayDue cutoff c
      · rfl
      · exact absurd hb hd
    simp [decayStep, this] at h
  · intro t hsome hge
    have hfalse : decayDue cutoff c = false := by
      unfold decayDue
      rw [hsome]
      simp [not_lt.mpr hge]
    simp [decayStep, hfalse]
  · intro h1 h2
    simp only [decayStep]
    split_ifs with hd hne
    · exfalso
      rcases hne with h | h
      · exact h h1
      · exact h h2
    · rfl
    · rfl
  · intro i sc st hmem
    induction cs with
    | nil => simp [decayCycleTasks] at hmem
    | cons p rest ih =>
      rcases p with ⟨j, cm⟩
      simp only [decayCycleTasks] at hmem
      cases hstep : decayStep s cutoff cm with
      | write sc2 st2 =>
        rw [hstep] at hmem
        simp only [List.mem_cons] at hmem
        rcases hmem with heq | hmem
        · simp only [Prod.mk.injEq] at heq
          obtain ⟨rfl, rfl, rfl⟩ := heq
          exact ⟨cm, List.mem_cons_self _ _, hstep⟩
        · obtain ⟨cm2, hin, hw⟩ := ih hmem
          exact ⟨cm2, List.mem_cons_of_mem _ hin, hw⟩
      | unchanged =>
        rw [hstep] at hmem
        obtain ⟨cm2, hin, hw⟩ := ih hmem
        exact ⟨cm2, List.mem_cons_of_mem _ hin, hw⟩

/-- Witness for C6: a concept with recent positive feedback is untouched by
the decay decision. -/
theorem C6_witness :
    recentSample.last_positive_feedback_at = some 5 ∧ ((0:ℚ) ≤ 5)
    ∧ decayStep defaultSettings 0 recentSample = .unchanged :=
  ⟨rfl, by norm_num,
   (C6_decay_frame defaultSettings 0 recentSample []).2.1 5 rfl (by norm_num)⟩

/-- C7: successive recorded call starts through the shared rate limiter are
never closer together than the minimum interval: when the sleeps take at
least the computed remainder (nonnegative overshoots), every pair of
consecutive recorded start times differs by at least the minimum interval. -/
theorem C7_rate_limiter_spacing (minI : ℚ) (calls : List (ℚ × ℚ))
    (h : ∀ p ∈ calls, 0 ≤ p.2) :
    List.Chain' (fun x y => minI ≤ y - x) (rateLimitStarts minI none calls) := by
  cases calls with
  | nil => simp [rateLimitStarts]
  | cons p rest =>
    show List.Chain' _ (rateLimitStep minI none p.1 p.2 ::
      rateLimitStarts minI (some (rateLimitStep minI none p.1 p.2)) rest)
    exact rateLimitStarts_chain minI (rateLimitStep minI none p.1 p.2) rest
      (fun q hq => h q (List.mem_cons_of_mem _ hq))

/-- Witness for C7: three concrete limiter passes at the configured
4.1-second interval. -/
theorem C7_witness :
    List.Chain' (fun x y => (41/10 : ℚ) ≤ y - x)
      (rateLimitStarts (41/10) none sampleCalls) :=
  C7_rate_limiter_spacing (41/10) sampleCalls (by norm_num [sampleCalls])

/-- C8: for a translation request over supported language codes, a provider
response whose normalized text is identical to the lower-cased source term is
returned when the source and target languages differ and fails when they are
the same; an absent response and a response that normalizes to the empty
string always fail. -/
theorem C8_translation_identical_handling (term src tgt raw : String)
    (hsrc : src ∈ LANGUAGE_NAMES_KEYS) (htgt : tgt ∈ LANGUAGE_NAMES_KEYS)
    (hraw : raw ≠ "") (hterm : pyLower term ≠ "")
    (hid : normalizeTranslationText raw = pyLower term) :
    (translate_term term src tgt (some raw)
       = if src = tgt then none else some (pyLower term))
    ∧ translate_term term src tgt none = none
    ∧ (∀ r, normalizeTranslationText r = "" →
        translate_term term src tgt (some r) = none) := by
  refine ⟨?_, ?_, ?_⟩
  · simp only [translate_term, if_pos (And.intro hsrc htgt),
      if_neg hraw, hid, if_neg hterm]
    simp
  · simp [translate_term]
  · intro r hr
    by_cases hre : r = ""
    · simp [translate_term, hre]
    · simp [translate_term, hre, hr]

/-- Witness for C8: the provider echoes the source term across different
languages; the echo is accepted, and an absent response fails. -/
theorem C8_witness :
    translate_term "fever" "en" "fr" (some "Fever") = some "fever"
    ∧ translate_term "fever" "en" "fr" none = none := by
  have h := C8_translation_identical_handling "fever" "en" "fr" "Fever"
    (by decide) (by decide) (by decide) (by decide) (by decide)
  constructor
  · have h1 := h.1
    rw [if_neg (by decide)] at h1
    exact h1.trans (by decide)
  · exact h.2.1

/-- Counterexample for C9: the upsert stores the term lower-cased but NOT
trimmed of surrounding whitespace.  For the input term " Fever " the stored
value is " fever ", which differs from the trimmed-and-lower-cased value the
claim prescribes. -/
theorem C9_counterexample :
    storedTerm (add_or_update_translation_term 0 (some sampleConcept) "fr"
      " Fever ") "fr" = some " fever "
    ∧ (" fever " : String) ≠ pyLower (pyStrip " Fever ") := by
  constructor
  · decide
  · decide

/-- C9 amended: the translation upsert rejects unsupported language codes
without writing, and for a supported language stores the term lower-cased
with surrounding whitespace preserved (the source applies no trimming). -/
theorem C9_amended_upsert (now : ℚ) (c : Concept) (lang term : String) :
    (lang ∉ SUPPORTED_LANGUAGES →
      add_or_update_translation_term now (some c) lang term = (false, some c)
      ∧ add_or_update_translation_term now none lang term = (false, none))
    ∧ (lang ∈ SUPPORTED_LANGUAGES →
      storedTerm (add_or_update_translation_term now (some c) lang term) lang
        = some (pyLower term)) := by
  constructor
  · intro h
    constructor
    · simp [add_or_update_translation_term, h]
    · simp [add_or_update_translation_term, h]
  · intro h
    simp only [add_or_update_translation_term, if_pos h, storedTerm]
    exact lookup_setTranslation c.translations lang (pyLower term)

/-- Witness for the amended C9: an unsupported code is rejected without a
write; a supported code stores the lower-cased term. -/
theorem C9_amended_witness :
    ("xx" ∉ SUPPORTED_LANGUAGES)
    ∧ add_or_update_translation_term 0 (some sampleConcept) "xx" "Fieber"
        = (false, some sampleConcept)
    ∧ ("fr" ∈ SUPPORTED_LANGUAGES)
    ∧ storedTerm (add_or_update_translation_term 0 (some sampleConcept) "fr"
        "Fievre") "fr" = some "fievre" := by
  refine ⟨by decide,
    ((C9_amended_upsert 0 sampleConcept "xx" "Fieber").1 (by decide)).1,
    by decide, ?_⟩
  have h := (C9_amended_upsert 0 sampleConcept "fr" "Fievre").2 (by decide)
  exact h.trans (by decide)

/-- C10: for an existing concept, process_feedback applies and persists the
metric update even when the payload's language has no stored translation or
the supplied verification term mismatches the stored one; the result is
exactly the ordinary update (with usage incremented), never a rejection. -/
theorem C10_feedback_mismatch_only_logged (s : Settings) (now : ℚ)
    (c : Concept) (p : FeedbackPayload)
    (hmm : feedbackLangMissing c p = true ∨ feedbackTermMismatch c p = true) :
    process_feedback s now (some c) true p
      = some (applyFeedbackToConcept s now c p.relevance_metric)
    ∧ process_feedback s now (some c) true p ≠ none
    ∧ (applyFeedbackToConcept s now c p.relevance_metric).metrics.usage_count
      = c.metrics.usage_count + 1 := by
  refine ⟨rfl, by simp [process_feedback], rfl⟩

/-- Witness for C10: feedback in a language missing from the concept's
translations still applies the ordinary update. -/
theorem C10_witness :
    feedbackLangMissing sampleConcept samplePayload = true
    ∧ process_feedback defaultSettings 0 (some sampleConcept) true
        samplePayload
      = some (applyFeedbackToConcept defaultSettings 0 sampleConcept
        (9/10)) := by
  refine ⟨by decide, ?_⟩
  have h := C10_feedback_mismatch_only_logged defaultSettings 0 sampleConcept
    samplePayload (Or.inl (by decide))
  exact h.1

end KeywordManager
